import Mathlib

/-!
Verification of the Blood-Donation-server core logic against its
natural-language specification.

The repository is a Node/Express + Mongoose REST backend.  The core logic
consists of a handful of pure decision functions and filtered-query helpers:

* `isEligibleToDonate`  (src/models, Donor schema method) — 90-day cooldown,
  willingness and deferral checks;
* `toSafeObject`        (src/models, Donor schema method) — role-based
  field redaction of a donor record;
* `findMatchingDonors`  (request routes) — filtered donor query for a
  blood request;
* the request status-update handler (PUT /:id/status);
* the request-creation handler (POST /);
* the chat message-send handler (POST /:id/messages) and the
  pause / unpause handlers (chat routes).

We embed these shallowly: Mongo documents become Lean structures, dates
become `Int` milliseconds since the epoch (JavaScript `Date` arithmetic is
millisecond arithmetic), object ids become `Nat`, optional / nullable
fields become `Option`, and each Express handler becomes a pure function
from its inputs (including the relevant slice of the store) to an outcome
value recording the HTTP status, body and persisted writes.
-/

/-- Milliseconds in a day: the JS constant `1000 * 60 * 60 * 24`. -/
def msPerDay : Int := 1000 * 60 * 60 * 24

/-- JS `Math.floor(a / msPerDay)`: floor division (rounds toward minus
infinity, as `Math.floor` on the real quotient does). -/
def floorDivMs (a : Int) : Int := Int.fdiv a msPerDay

/-- JS `Math.ceil(a / msPerDay)`: ceiling division (rounds toward plus
infinity, as `Math.ceil` on the real quotient does). -/
def ceilDivMs (a : Int) : Int := -(Int.fdiv (-a) msPerDay)

/-- Result of the eligibility check: JS object
`{eligible, daysUntilEligible}` where `daysUntilEligible` is a number or
`null` (`none`). -/
structure Eligibility where
  eligible : Bool
  daysUntilEligible : Option Int
deriving DecidableEq, Repr

/-- A donor document (Donor schema in src/models).  Ids are `Nat`, dates
are `Int` milliseconds, nullable / optional fields are `Option`.  The
nested `address` subdocument is collapsed to the `city` field, the only
address component the modelled logic (matching and projection) inspects;
the projection copies the address through opaquely.  -/
structure Donor where
  id : Nat
  userId : Nat
  userProfilePicture : Option String
  fullName : String
  email : Option String
  phone : String
  emergencyContactName : String
  emergencyContactPhone : String
  dateOfBirth : Option Int
  gender : Option String
  bloodGroup : String
  willingToDonate : Bool
  visibility : String
  phoneVisibility : String
  allowRequestContact : Bool
  contactPreference : String
  addressCity : Option String
  lastDonationDate : Option Int
  totalDonations : Nat
  notes : Option String
  deferralUntil : Option Int
  isDeleted : Bool
  createdAt : Int
  updatedAt : Int
deriving DecidableEq, Repr

/-- The tail of `isEligibleToDonate` after the willingness and deferral
checks have fallen through: the 90-day minimum-gap rule
(`MIN_GAP = 90`). -/
def minGapCheck (d : Donor) (now : Int) : Eligibility :=
  match d.lastDonationDate with
  | none => { eligible := true, daysUntilEligible := some 0 }
  | some last =>
    let diffDays := floorDivMs (now - last)
    if diffDays ≥ 90 then { eligible := true, daysUntilEligible := some 0 }
    else { eligible := false, daysUntilEligible := some (90 - diffDays) }

/-- `donorSchema.methods.isEligibleToDonate` from the Donor model.
`now` stands for the `new Date()` calls in the method body. -/
def isEligibleToDonate (d : Donor) (now : Int) : Eligibility :=
  if d.willingToDonate = false then
    { eligible := false, daysUntilEligible := none }
  else
    match d.deferralUntil with
    | some dU =>
      if now < dU then
        { eligible := false, daysUntilEligible := some (ceilDivMs (dU - now)) }
      else minGapCheck d now
    | none => minGapCheck d now

/-- Whether step 2 of the reference algorithm applies: `deferralUntil` is
set and strictly in the future. -/
def specDeferralActive (d : Donor) (now : Int) : Bool :=
  match d.deferralUntil with
  | some dU => decide (now < dU)
  | none => false

/-- Milliseconds remaining until the deferral ends (only meaningful when
`specDeferralActive` holds). -/
def specDeferralRemaining (d : Donor) (now : Int) : Int :=
  (d.deferralUntil.getD now) - now

/-- `elapsedDays = floor((now - lastDonationDate) / 1 day)` when a last
donation date exists. -/
def specElapsedDays (d : Donor) (now : Int) : Option Int :=
  d.lastDonationDate.map (fun last => floorDivMs (now - last))

/-- The reference eligibility algorithm, transcribed from section 4.1 of
the spec (priority order: willingness, deferral, no previous donation,
90-day gap).  Kept as a separate definition, written from the spec text,
to be compared against the implementation `isEligibleToDonate`. -/
def specEligibility (d : Donor) (now : Int) : Eligibility :=
  if d.willingToDonate = false then
    { eligible := false, daysUntilEligible := none }
  else if specDeferralActive d now then
    { eligible := false,
      daysUntilEligible := some (ceilDivMs (specDeferralRemaining d now)) }
  else
    match specElapsedDays d now with
    | none => { eligible := true, daysUntilEligible := some 0 }
    | some elapsed =>
      if elapsed ≥ 90 then { eligible := true, daysUntilEligible := some 0 }
      else { eligible := false, daysUntilEligible := some (90 - elapsed) }

/-- C1: the implemented eligibility check coincides with the reference
algorithm of spec section 4.1 on every donor and every current time, and
in particular a willing, undeferred donor whose last donation was exactly
90 days (in milliseconds) before `now` is eligible (boundary
inclusive). -/
theorem isEligibleToDonate_matches_spec :
    (∀ (d : Donor) (now : Int), isEligibleToDonate d now = specEligibility d now) ∧
    (∀ (d : Donor) (now : Int),
      d.willingToDonate = true →
      (∀ u, d.deferralUntil = some u → u ≤ now) →
      d.lastDonationDate = some (now - 90 * msPerDay) →
      (isEligibleToDonate d now).eligible = true) := by
  constructor
  · intro d now
    unfold isEligibleToDonate specEligibility specDeferralActive
      specDeferralRemaining specElapsedDays minGapCheck
    cases hw : d.willingToDonate with
    | false => simp
    | true =>
      simp only [Bool.true_eq_false, if_false]
      cases hdef : d.deferralUntil with
      | none =>
        simp only [Option.getD, decide_eq_true_eq, if_false]
        cases d.lastDonationDate <;> simp
      | some dU =>
        by_cases hlt : now < dU
        · simp [hlt]
        · simp only [hlt, decide_False, if_false, if_neg hlt]
          cases d.lastDonationDate <;> simp
  · intro d now hw hdef hlast
    unfold isEligibleToDonate minGapCheck
    have hgap : floorDivMs (90 * msPerDay) = 90 := by
      unfold floorDivMs msPerDay
      decide
    cases hdu : d.deferralUntil with
    | none => simp [hw, hlast, hgap]
    | some u =>
      have hu : u ≤ now := hdef u hdu
      have : ¬ now < u := not_lt.mpr hu
      simp [hw, hlast, hgap, this]

/-- A concrete instance of `isEligibleToDonate_matches_spec`: a willing,
undeferred donor whose last donation was exactly 90 days before time 0 is
eligible. -/
theorem isEligibleToDonate_matches_spec_witness :
    (isEligibleToDonate
      { id := 1, userId := 1, userProfilePicture := none, fullName := "A",
        email := none, phone := "0", emergencyContactName := "E",
        emergencyContactPhone := "1", dateOfBirth := none, gender := none,
        bloodGroup := "O-", willingToDonate := true, visibility := "public",
        phoneVisibility := "public", allowRequestContact := true,
        contactPreference := "message", addressCity := some "Dhaka",
        lastDonationDate := some (0 - 90 * msPerDay), totalDonations := 1,
        notes := none, deferralUntil := none, isDeleted := false,
        createdAt := 0, updatedAt := 0 } 0).eligible = true :=
  isEligibleToDonate_matches_spec.2 _ 0 rfl
    (fun u h => by simp at h) rfl

/-- The shape of the object built by `donorSchema.methods.toSafeObject`.
For each conditionally-added key, the outer `Option` records whether the
key is present in the returned object at all (`none` = key absent); for
keys whose donor-side value is itself nullable, the inner `Option` is
that value. -/
structure SafeDonorView where
  id : Nat
  profilePicture : Option String
  fullName : String
  bloodGroup : String
  willingToDonate : Bool
  addressCity : Option String
  visibility : String
  phoneVisibility : String
  allowRequestContact : Bool
  contactPreference : String
  totalDonations : Nat
  lastDonationDate : Option Int
  createdAt : Int
  updatedAt : Int
  eligibility : Eligibility
  phone : Option String
  email : Option (Option String)
  emergencyContactName : Option String
  emergencyContactPhone : Option String
  notes : Option (Option String)
  gender : Option (Option String)
  dateOfBirth : Option (Option Int)
deriving DecidableEq, Repr

/-- Role normalization from `toSafeObject`: anything other than the two
literals "admin" and "guest" is treated as "registered". -/
def normalizeRole (viewerRole : String) : String :=
  if viewerRole = "admin" then "admin"
  else if viewerRole = "guest" then "guest"
  else "registered"

/-- The `isOwner` test from `toSafeObject`: the viewer id is present and
equals the id of the user owning the donor profile (a `null` viewer id is
falsy in JS, hence never an owner). -/
def isOwnerView (d : Donor) (viewerId : Option Nat) : Bool :=
  match viewerId with
  | some v => v = d.userId
  | none => false

/-- The `phoneAllowed` if/else chain from `toSafeObject`. -/
def phoneAllowedFor (d : Donor) (nRole : String) (isOwner : Bool) : Bool :=
  if nRole = "admin" || isOwner then true
  else if nRole = "registered" then true
  else if d.phoneVisibility = "public" then true
  else false

/-- `donorSchema.methods.toSafeObject` (the Visibility Projector).  `now`
stands for the implicit current time used by the embedded eligibility
computation. -/
def toSafeObject (d : Donor) (viewerRole : String) (viewerId : Option Nat)
    (now : Int) : SafeDonorView :=
  let isOwner := isOwnerView d viewerId
  let nRole := normalizeRole viewerRole
  let phoneAllowed := phoneAllowedFor d nRole isOwner
  let elig := isEligibleToDonate d now
  { id := d.id
    profilePicture := d.userProfilePicture
    fullName := d.fullName
    bloodGroup := d.bloodGroup
    willingToDonate := d.willingToDonate
    addressCity := d.addressCity
    visibility := d.visibility
    phoneVisibility := d.phoneVisibility
    allowRequestContact := d.allowRequestContact
    contactPreference := d.contactPreference
    totalDonations := d.totalDonations
    lastDonationDate := d.lastDonationDate
    createdAt := d.createdAt
    updatedAt := d.updatedAt
    eligibility :=
      { eligible := elig.eligible, daysUntilEligible := elig.daysUntilEligible }
    phone := if phoneAllowed then some d.phone else none
    email :=
      if isOwner || nRole = "admin" || nRole = "registered" then some d.email
      else none
    emergencyContactName :=
      if isOwner || nRole = "admin" then some d.emergencyContactName else none
    emergencyContactPhone :=
      if isOwner || nRole = "admin" then some d.emergencyContactPhone else none
    notes := if isOwner || nRole = "admin" then some d.notes else none
    gender := if isOwner || nRole = "admin" then some d.gender else none
    dateOfBirth := if isOwner || nRole = "admin" then some d.dateOfBirth else none }

/-- A concrete donor record used to instantiate the theorems at concrete
inputs. -/
def sampleDonor : Donor :=
  { id := 1, userId := 1, userProfilePicture := none, fullName := "A",
    email := some "a@example.com", phone := "0123", emergencyContactName := "E",
    emergencyContactPhone := "0456", dateOfBirth := some 0,
    gender := some "other", bloodGroup := "O-", willingToDonate := true,
    visibility := "public", phoneVisibility := "registered",
    allowRequestContact := true, contactPreference := "message",
    addressCity := some "Dhaka", lastDonationDate := none,
    totalDonations := 0, notes := some "n", deferralUntil := none,
    isDeleted := false, createdAt := 0, updatedAt := 0 }

/-- C2: the projected view contains the phone key exactly when the viewer
is an admin, the owning user, any authenticated registered viewer
(any role string other than "admin" and "guest"), or a guest viewing a
donor whose phoneVisibility is "public"; in particular a guest viewer of
a donor with phoneVisibility "registered" or "admin" never gets the
phone. -/
theorem toSafeObject_phone_iff :
    ∀ (d : Donor) (viewerRole : String) (viewerId : Option Nat) (now : Int),
      ((toSafeObject d viewerRole viewerId now).phone.isSome = true ↔
        (viewerRole = "admin" ∨ viewerId = some d.userId
          ∨ (viewerRole ≠ "admin" ∧ viewerRole ≠ "guest")
          ∨ (viewerRole = "guest" ∧ d.phoneVisibility = "public")))
      ∧ (d.phoneVisibility = "registered" ∨ d.phoneVisibility = "admin" →
          (toSafeObject d "guest" none now).phone = none) := by
  intro d viewerRole viewerId now
  constructor
  · by_cases hA : viewerRole = "admin"
    · subst hA
      simp [toSafeObject, normalizeRole, phoneAllowedFor]
    · by_cases hG : viewerRole = "guest"
      · subst hG
        cases hid : viewerId with
        | none =>
          by_cases hpv : d.phoneVisibility = "public" <;>
            simp [toSafeObject, normalizeRole, phoneAllowedFor, isOwnerView, hpv]
        | some v =>
          by_cases hov : v = d.userId
          · subst hov
            simp [toSafeObject, normalizeRole, phoneAllowedFor, isOwnerView]
          · by_cases hpv : d.phoneVisibility = "public" <;>
              simp [toSafeObject, normalizeRole, phoneAllowedFor, isOwnerView,
                hpv, hov]
      · simp [toSafeObject, normalizeRole, phoneAllowedFor, hA, hG]
  · intro hpv
    have hnp : d.phoneVisibility ≠ "public" := by
      rcases hpv with h | h <;> rw [h] <;> decide
    simp [toSafeObject, normalizeRole, phoneAllowedFor, isOwnerView, hnp]

/-- A concrete instance of `toSafeObject_phone_iff`: for a guest viewer
and a donor with phoneVisibility "registered", the view has no phone. -/
theorem toSafeObject_phone_iff_witness :
    (toSafeObject sampleDonor "guest" none 0).phone = none :=
  (toSafeObject_phone_iff sampleDonor "guest" none 0).2 (Or.inl rfl)

/-- C3: a registered (neither "admin" nor "guest"), non-owner viewer is
never shown emergencyContactName, emergencyContactPhone, notes, gender or
dateOfBirth; a guest viewer is never shown email, emergency contacts or
notes. -/
theorem toSafeObject_redacts_private_fields :
    ∀ (d : Donor) (viewerRole : String) (viewerId : Option Nat) (now : Int),
      (viewerRole ≠ "admin" → viewerRole ≠ "guest" →
        viewerId ≠ some d.userId →
        (toSafeObject d viewerRole viewerId now).emergencyContactName = none ∧
        (toSafeObject d viewerRole viewerId now).emergencyContactPhone = none ∧
        (toSafeObject d viewerRole viewerId now).notes = none ∧
        (toSafeObject d viewerRole viewerId now).gender = none ∧
        (toSafeObject d viewerRole viewerId now).dateOfBirth = none)
      ∧ ((toSafeObject d "guest" none now).email = none ∧
        (toSafeObject d "guest" none now).emergencyContactName = none ∧
        (toSafeObject d "guest" none now).emergencyContactPhone = none ∧
        (toSafeObject d "guest" none now).notes = none) := by
  intro d viewerRole viewerId now
  constructor
  · intro hA hG hown
    have how : isOwnerView d viewerId = false := by
      unfold isOwnerView
      cases hid : viewerId with
      | none => rfl
      | some v =>
        have : v ≠ d.userId := fun h => hown (by rw [hid, h])
        simp [this]
    simp [toSafeObject, normalizeRole, hA, hG, how]
  · simp [toSafeObject, normalizeRole, isOwnerView]

/-- A concrete instance of `toSafeObject_redacts_private_fields` for a
registered non-owner viewer. -/
theorem toSafeObject_redacts_private_fields_witness :
    (toSafeObject sampleDonor "registered" (some 99) 0).emergencyContactName
        = none ∧
    (toSafeObject sampleDonor "registered" (some 99) 0).emergencyContactPhone
        = none ∧
    (toSafeObject sampleDonor "registered" (some 99) 0).notes = none ∧
    (toSafeObject sampleDonor "registered" (some 99) 0).gender = none ∧
    (toSafeObject sampleDonor "registered" (some 99) 0).dateOfBirth = none :=
  (toSafeObject_redacts_private_fields sampleDonor "registered" (some 99) 0).1
    (by decide) (by decide) (by decide)

/-- C10: any viewer role string other than "admin" and "guest" is
normalized to the registered projection (the produced view is literally
the one a "registered" viewer gets), and such a viewer, when not the
owner, never receives the admin-level fields. -/
theorem toSafeObject_unknown_role_is_registered :
    ∀ (d : Donor) (viewerRole : String) (viewerId : Option Nat) (now : Int),
      viewerRole ≠ "admin" → viewerRole ≠ "guest" →
      (toSafeObject d viewerRole viewerId now
          = toSafeObject d "registered" viewerId now
        ∧ (viewerId ≠ some d.userId →
            (toSafeObject d viewerRole viewerId now).emergencyContactName
                = none ∧
            (toSafeObject d viewerRole viewerId now).emergencyContactPhone
                = none ∧
            (toSafeObject d viewerRole viewerId now).notes = none ∧
            (toSafeObject d viewerRole viewerId now).gender = none ∧
            (toSafeObject d viewerRole viewerId now).dateOfBirth = none)) := by
  intro d viewerRole viewerId now hA hG
  constructor
  · simp [toSafeObject, normalizeRole, hA, hG]
  · intro hown
    have how : isOwnerView d viewerId = false := by
      unfold isOwnerView
      cases hid : viewerId with
      | none => rfl
      | some v =>
        have : v ≠ d.userId := fun h => hown (by rw [hid, h])
        simp [this]
    simp [toSafeObject, normalizeRole, hA, hG, how]

/-- A concrete instance of `toSafeObject_unknown_role_is_registered` with
an unrecognized role string. -/
theorem toSafeObject_unknown_role_is_registered_witness :
    toSafeObject sampleDonor "moderator" (some 99) 0
      = toSafeObject sampleDonor "registered" (some 99) 0 :=
  (toSafeObject_unknown_role_is_registered sampleDonor "moderator" (some 99) 0
    (by decide) (by decide)).1

/-- A blood request document (BloodRequest schema). -/
structure BloodRequestRec where
  id : Nat
  userId : Nat
  requestNumber : Nat
  bloodGroup : String
  city : String
  hospital : Option String
  patientName : Option String
  unitsNeeded : Nat
  requiredDate : Int
  contactPhone : String
  status : String
  isDeleted : Bool
deriving DecidableEq, Repr

/-- `allowedVisibilities` helper from the request routes: the donor
visibility tiers each viewer role may see. -/
def allowedVisibilities (role : String) : List String :=
  if role = "admin" then ["public", "registered", "admin"]
  else if role = "guest" then ["public"]
  else ["public", "registered"]

/-- Whether `pat` occurs at the head of `hay`. -/
def charsStartWith : List Char → List Char → Bool
  | _, [] => true
  | [], _ :: _ => false
  | h :: hs, p :: ps => (h == p) && charsStartWith hs ps

/-- Whether `pat` occurs contiguously anywhere inside `hay`. -/
def charsContain : List Char → List Char → Bool
  | [], pat => pat.isEmpty
  | h :: t, pat => charsStartWith (h :: t) pat || charsContain t pat

/-- Case-insensitive substring test: the Mongo filter
`$regex: city, $options: "i"` applied to a stored plain-text city. -/
def containsCI (hay pat : String) : Bool :=
  charsContain (hay.toList.map Char.toLower) (pat.toList.map Char.toLower)

/-- The `address.city` regex filter of `findMatchingDonors`: a donor with
no stored city never matches a city-filtered query. -/
def cityFilterPasses (d : Donor) (city : String) : Bool :=
  match d.addressCity with
  | some c => containsCI c city
  | none => false

/-- The Mongo `filters` object built by `findMatchingDonors` (the city
clause is added only when the request has a non-empty city, mirroring the
JS truthiness test `if (requestDoc.city)`). -/
def matchesFilters (req : BloodRequestRec) (viewerRole : String)
    (d : Donor) : Bool :=
  d.willingToDonate && d.bloodGroup == req.bloodGroup
    && (allowedVisibilities viewerRole).contains d.visibility
    && d.isDeleted == false
    && (if req.city = "" then true else cityFilterPasses d req.city)

/-- `findMatchingDonors` from the request routes: filtered query over the
donor store, then the eligibility filter, then the per-viewer projection.
Returns the pair `(eligibleDonors, safeDonors)` the JS helper returns. -/
def findMatchingDonors (store : List Donor) (req : BloodRequestRec)
    (viewerRole : String) (viewerId : Option Nat) (now : Int) :
    List Donor × List SafeDonorView :=
  let donors := store.filter (matchesFilters req viewerRole)
  let eligibleDonors :=
    donors.filter (fun d => (isEligibleToDonate d now).eligible)
  let safeDonors :=
    eligibleDonors.map (fun d => toSafeObject d viewerRole viewerId now)
  (eligibleDonors, safeDonors)

/-- C4: every donor returned by `findMatchingDonors` is willing, not
soft-deleted, blood-group equal to the request, city-matching when the
request carries a city, within the viewer role visibility set, and
currently eligible; the projected list is exactly the eligible list passed
through `toSafeObject`; and a donor with a different blood group is never
returned. -/
theorem findMatchingDonors_sound :
    ∀ (store : List Donor) (req : BloodRequestRec) (viewerRole : String)
      (viewerId : Option Nat) (now : Int),
      (∀ d ∈ (findMatchingDonors store req viewerRole viewerId now).1,
        d.willingToDonate = true ∧
        d.isDeleted = false ∧
        d.bloodGroup = req.bloodGroup ∧
        (req.city ≠ "" → cityFilterPasses d req.city = true) ∧
        (viewerRole = "admin" →
          d.visibility ∈ (["public", "registered", "admin"] : List String)) ∧
        (viewerRole = "guest" →
          d.visibility ∈ (["public"] : List String)) ∧
        (viewerRole ≠ "admin" → viewerRole ≠ "guest" →
          d.visibility ∈ (["public", "registered"] : List String)) ∧
        (isEligibleToDonate d now).eligible = true) ∧
      ((findMatchingDonors store req viewerRole viewerId now).2 =
        ((findMatchingDonors store req viewerRole viewerId now).1).map
          (fun d => toSafeObject d viewerRole viewerId now)) ∧
      (∀ d : Donor, d.bloodGroup ≠ req.bloodGroup →
        d ∉ (findMatchingDonors store req viewerRole viewerId now).1) := by
  intro store req viewerRole viewerId now
  refine ⟨?_, rfl, ?_⟩
  · intro d hd
    simp only [findMatchingDonors, List.mem_filter] at hd
    obtain ⟨⟨hstore, hfilt⟩, helig⟩ := hd
    simp only [matchesFilters, Bool.and_eq_true, beq_iff_eq,
      Bool.ite_eq_true_distrib] at hfilt
    obtain ⟨⟨⟨⟨hwill, hbg⟩, hvis⟩, hdel⟩, hcity⟩ := hfilt
    refine ⟨hwill, by simpa using hdel, hbg, ?_, ?_, ?_, ?_, by simpa using helig⟩
    · intro hc
      rw [if_neg hc] at hcity
      exact hcity
    · intro hrole
      rw [hrole] at hvis
      simpa [allowedVisibilities] using hvis
    · intro hrole
      rw [hrole] at hvis
      simpa [allowedVisibilities] using hvis
    · intro hA hG
      simp only [allowedVisibilities, if_neg hA, if_neg hG] at hvis
      simpa using hvis
  · intro d hbg hd
    simp only [findMatchingDonors, List.mem_filter] at hd
    obtain ⟨⟨hstore, hfilt⟩, helig⟩ := hd
    simp only [matchesFilters, Bool.and_eq_true, beq_iff_eq] at hfilt
    exact hbg hfilt.1.1.1.2

/-- A second concrete donor differing from `sampleDonor` only in identity
and blood group, used to exercise the blood-group exclusion. -/
def sampleDonorB : Donor :=
  { sampleDonor with id := 2, userId := 2, bloodGroup := "A+" }

/-- A concrete open blood request for group O- in Dhaka. -/
def sampleRequest : BloodRequestRec :=
  { id := 10, userId := 3, requestNumber := 1, bloodGroup := "O-",
    city := "dhaka", hospital := none, patientName := none,
    unitsNeeded := 2, requiredDate := 1000, contactPhone := "0789",
    status := "open", isDeleted := false }

/-- A concrete instance of `findMatchingDonors_sound`: over a store with
one O- donor in Dhaka and one A+ donor, for a guest viewer the O- donor is
returned with all matching properties, and the A+ donor is excluded even
though its city matches. -/
theorem findMatchingDonors_sound_witness :
    (sampleDonor.willingToDonate = true ∧
      sampleDonor.isDeleted = false ∧
      sampleDonor.bloodGroup = sampleRequest.bloodGroup ∧
      (sampleRequest.city ≠ "" →
        cityFilterPasses sampleDonor sampleRequest.city = true) ∧
      ("guest" = "admin" →
        sampleDonor.visibility ∈ (["public", "registered", "admin"] : List String)) ∧
      ("guest" = "guest" →
        sampleDonor.visibility ∈ (["public"] : List String)) ∧
      ("guest" ≠ "admin" → "guest" ≠ "guest" →
        sampleDonor.visibility ∈ (["public", "registered"] : List String)) ∧
      (isEligibleToDonate sampleDonor 0).eligible = true) ∧
    sampleDonorB ∉
      (findMatchingDonors [sampleDonor, sampleDonorB] sampleRequest
        "guest" none 0).1 :=
  ⟨(findMatchingDonors_sound [sampleDonor, sampleDonorB] sampleRequest
      "guest" none 0).1 sampleDonor (by decide),
    (findMatchingDonors_sound [sampleDonor, sampleDonorB] sampleRequest
      "guest" none 0).2.2 sampleDonorB (by decide)⟩

/-- Outcome of the PUT /:id/status handler: the HTTP status code family it
answers with (400 validation, 404 not found, 403 forbidden, 200 ok with
the updated request). -/
inductive StatusUpdateResult where
  | ok (updated : BloodRequestRec)
  | badRequest (msg : String)
  | notFound (msg : String)
  | forbidden (msg : String)
deriving DecidableEq, Repr

/-- The `allowedStatuses` list from the status-update handler. -/
def allowedStatuses : List String := ["open", "fulfilled", "cancelled"]

/-- The PUT /:id/status handler from the request routes (the spec calls
this operation `transitionRequestStatus`).  The store lookup
`findOne(\x7b _id, isDeleted: false \x7d)` is modelled by taking the
request record and answering 404 when it is soft-deleted; the audit-log
write does not affect the response and is omitted.  Note the handler
checks, in this order: status validity, existence, then it REJECTS the
owner with a 400 ("You cannot message your own request."), then rejects
everyone who is neither admin nor owner with a 403. -/
def updateRequestStatus (r : BloodRequestRec) (newStatus : String)
    (actorRole : String) (actorId : Nat) : StatusUpdateResult :=
  if allowedStatuses.contains newStatus = false then
    .badRequest "Status must be open, fulfilled, or cancelled."
  else if r.isDeleted then
    .notFound "Blood request not found."
  else if r.userId = actorId then
    .badRequest "You cannot message your own request."
  else if actorRole ≠ "admin" && r.userId ≠ actorId then
    .forbidden "You can only update your own request."
  else
    .ok { r with status := newStatus }

/-- An open request owned by user 1. -/
def openRequestOfUser1 : BloodRequestRec :=
  { sampleRequest with id := 20, userId := 1, status := "open" }

/-- C5 (code bug): the owner of an open request is NOT allowed to set its
status — the handler answers 400 "You cannot message your own request."
(a check copy-pasted from the messaging route) before the intended
owner-or-admin rule, contradicting the handler comments "Update request
status (owner or admin)" and "Only admins or the owner can update." -/
theorem updateRequestStatus_rejects_owner :
    updateRequestStatus openRequestOfUser1 "fulfilled" "user" 1 =
      .badRequest "You cannot message your own request." ∧
    updateRequestStatus openRequestOfUser1 "cancelled" "user" 1 =
      .badRequest "You cannot message your own request." := by
  constructor <;> rfl

/-- C6 counterexample: a request whose stored status is the terminal
"cancelled" CAN be set back to "open" (here by an admin who is not the
owner) — the operation succeeds and the stored status changes, so the
claimed rejection of transitions out of a terminal state does not hold. -/
theorem updateRequestStatus_terminal_reopen :
    updateRequestStatus { openRequestOfUser1 with status := "cancelled" }
        "open" "admin" 2 =
      .ok { openRequestOfUser1 with status := "open" } := by
  rfl

/-- C6 amended: the status-update handler validates only that the new
status is one of open / fulfilled / cancelled (anything else gets a 400
validation error); it never inspects the current status, so any allowed
value — including "open" — is accepted from any current state whenever
the actor passes the (admin, non-owner) gate. -/
theorem updateRequestStatus_no_terminal_check :
    ∀ (r : BloodRequestRec) (newStatus actorRole : String) (actorId : Nat),
      (allowedStatuses.contains newStatus = false →
        updateRequestStatus r newStatus actorRole actorId =
          .badRequest "Status must be open, fulfilled, or cancelled.") ∧
      (r.isDeleted = false → r.userId ≠ actorId → actorRole = "admin" →
        allowedStatuses.contains newStatus = true →
        updateRequestStatus r newStatus actorRole actorId =
          .ok { r with status := newStatus }) := by
  intro r newStatus actorRole actorId
  constructor
  · intro hbad
    unfold updateRequestStatus
    rw [hbad]
    rfl
  · intro hdel hown hadm hok
    unfold updateRequestStatus
    rw [hok]
    simp [hdel, hown, hadm]

/-- A concrete instance of `updateRequestStatus_no_terminal_check`: an
admin non-owner reopens a fulfilled request, and an out-of-vocabulary
status is rejected. -/
theorem updateRequestStatus_no_terminal_check_witness :
    updateRequestStatus { openRequestOfUser1 with status := "fulfilled" }
        "open" "admin" 2 =
      .ok { openRequestOfUser1 with status := "open" } ∧
    updateRequestStatus openRequestOfUser1 "reopened" "admin" 2 =
      .badRequest "Status must be open, fulfilled, or cancelled." :=
  ⟨(updateRequestStatus_no_terminal_check
      { openRequestOfUser1 with status := "fulfilled" } "open" "admin" 2).2
      rfl (by decide) rfl (by decide),
    (updateRequestStatus_no_terminal_check
      openRequestOfUser1 "reopened" "admin" 2).1 (by decide)⟩

/-- A notification document, reduced to the fields the claims inspect:
the receiving user and the `type` discriminator. -/
structure NotificationRec where
  userId : Nat
  ntype : String
deriving DecidableEq, Repr

/-- Body of a POST / request-creation call. -/
structure CreateInput where
  bloodGroup : String
  city : String
  hospital : Option String
  patientName : Option String
  unitsNeeded : Nat
  requiredDate : Int
  contactPhone : String
deriving DecidableEq, Repr

/-- What the request-creation handler persists and returns: the new
request, the projected matches included in the 201 response, and the
notifications the workflow creates. -/
structure CreateOutcome where
  request : BloodRequestRec
  matchList : List SafeDonorView
  notifications : List NotificationRec
deriving DecidableEq, Repr

/-- The POST / request-creation handler from the request routes: after
the required-field validation it saves the new open request, runs
`findMatchingDonors` with the requester as viewer, and answers 201 with
the request and the projected matches.  The handler body contains no
notification creation of any kind, so the outcome's notification list is
empty.  `existingCount` is the `countDocuments` result used for the
per-user request number; the JS truthiness guards on the required fields
are rendered as emptiness / zero tests. -/
def createBloodRequest (store : List Donor) (actorId : Nat)
    (actorRole : String) (inp : CreateInput) (existingCount : Nat)
    (newId : Nat) (now : Int) : Except String CreateOutcome :=
  if inp.bloodGroup = "" ∨ inp.city = "" ∨ inp.unitsNeeded = 0 ∨
      inp.contactPhone = "" then
    .error "bloodGroup, city, unitsNeeded, requiredDate, and contactPhone are required."
  else
    let req : BloodRequestRec :=
      { id := newId, userId := actorId, requestNumber := existingCount + 1,
        bloodGroup := inp.bloodGroup, city := inp.city,
        hospital := inp.hospital, patientName := inp.patientName,
        unitsNeeded := inp.unitsNeeded, requiredDate := inp.requiredDate,
        contactPhone := inp.contactPhone, status := "open",
        isDeleted := false }
    let m := findMatchingDonors store req actorRole (some actorId) now
    .ok { request := req, matchList := m.2, notifications := [] }

/-- The creation input matching `sampleDonor` (group O-, city Dhaka). -/
def sampleCreateInput : CreateInput :=
  { bloodGroup := "O-", city := "dhaka", hospital := none,
    patientName := none, unitsNeeded := 2, requiredDate := 1000,
    contactPhone := "0789" }

/-- The concrete outcome of the sample request creation: one projected
match and no notifications. -/
def sampleCreateOutcome : CreateOutcome :=
  { request :=
      { id := 10, userId := 3, requestNumber := 1,
        bloodGroup := "O-", city := "dhaka", hospital := none,
        patientName := none, unitsNeeded := 2, requiredDate := 1000,
        contactPhone := "0789", status := "open", isDeleted := false },
    matchList := [toSafeObject sampleDonor "user" (some 3) 0],
    notifications := [] }

/-- C7 counterexample: user 3 creates a request that matches
`sampleDonor`, whose owning user has `allowRequestContact = true` and a
linked account — yet the creation workflow emits no notification at all
(in particular none of type "request match"): the handler simply has no
notification side effect. -/
theorem createBloodRequest_no_match_notification :
    sampleDonor.allowRequestContact = true ∧
    createBloodRequest [sampleDonor] 3 "user" sampleCreateInput 0 10 0 =
      .ok sampleCreateOutcome ∧
    sampleCreateOutcome.matchList.length = 1 ∧
    sampleCreateOutcome.notifications = [] :=
  ⟨rfl, rfl, rfl, rfl⟩

/-- C7 amended: whatever the store, actor and input, a successful
request-creation emits no notifications whatsoever (the matches are only
returned in the response body); there is no "request match" notification
in the workflow. -/
theorem createBloodRequest_emits_no_notifications :
    ∀ (store : List Donor) (actorId : Nat) (actorRole : String)
      (inp : CreateInput) (existingCount newId : Nat) (now : Int)
      (out : CreateOutcome),
      createBloodRequest store actorId actorRole inp existingCount newId now
        = .ok out →
      out.notifications = [] := by
  intro store actorId actorRole inp existingCount newId now out h
  unfold createBloodRequest at h
  by_cases hv : inp.bloodGroup = "" ∨ inp.city = "" ∨ inp.unitsNeeded = 0 ∨
      inp.contactPhone = ""
  · rw [if_pos hv] at h
    cases h
  · rw [if_neg hv] at h
    cases h
    rfl

/-- A concrete instance of `createBloodRequest_emits_no_notifications`. -/
theorem createBloodRequest_emits_no_notifications_witness :
    createBloodRequest [sampleDonor] 3 "user" sampleCreateInput 0 10 0 =
      .ok sampleCreateOutcome ∧
    sampleCreateOutcome.notifications = [] :=
  ⟨rfl, createBloodRequest_emits_no_notifications [sampleDonor] 3 "user"
    sampleCreateInput 0 10 0 sampleCreateOutcome rfl⟩

/-- JS `String.prototype.trim`: strip whitespace from both ends (written
over the character list so that it evaluates by kernel reduction). -/
def trimChars (cs : List Char) : List Char :=
  ((cs.dropWhile Char.isWhitespace).reverse.dropWhile Char.isWhitespace).reverse

/-- JS `text.trim()` on a Lean `String`. -/
def jsTrim (s : String) : String := String.mk (trimChars s.toList)

/-- Denormalized `lastMessage` snapshot stored on a chat. -/
structure LastMessage where
  text : String
  fromUser : Nat
  createdAt : Int
deriving DecidableEq, Repr

/-- A request-scoped chat document (RequestChat schema). -/
structure RequestChat where
  id : Nat
  requestId : Nat
  participants : List Nat
  lastMessage : Option LastMessage
  pausedBy : List Nat
  updatedAt : Int
deriving DecidableEq, Repr

/-- A request message document (RequestMessage schema). -/
structure MessageRec where
  fromUser : Nat
  toUser : Nat
  requestId : Nat
  text : String
  createdAt : Int
deriving DecidableEq, Repr

/-- Full outcome of the POST /:id/messages chat handler: the HTTP status
and response message, plus everything the handler persisted before
answering (messages created, the saved chat document if any, and
notifications created). -/
structure SendOutcome where
  status : Nat
  message : String
  savedMessages : List MessageRec
  savedChat : Option RequestChat
  savedNotifications : List NotificationRec
deriving DecidableEq, Repr

/-- The request-chat branch of the POST /:id/messages handler in the chat
routes.  `chat?` is the `RequestChat.findById` result (with the
`ensureMember` membership check inlined), and `notifyOk` injects whether
the awaited `Notification.create` succeeds: when it throws, control lands
in the handler's catch-all, which answers 500 — after the message and the
chat snapshot were already persisted. -/
def sendChatMessage (chat? : Option RequestChat) (senderId : Nat)
    (text : String) (now : Int) (notifyOk : Bool) : SendOutcome :=
  if jsTrim text = "" then
    { status := 400, message := "Message is required.",
      savedMessages := [], savedChat := none, savedNotifications := [] }
  else
    match chat? with
    | none =>
      { status := 404, message := "Chat not found.",
        savedMessages := [], savedChat := none, savedNotifications := [] }
    | some chat =>
      if chat.participants.contains senderId = false then
        { status := 403, message := "Not authorized for this chat.",
          savedMessages := [], savedChat := none, savedNotifications := [] }
      else if 0 < chat.pausedBy.length then
        { status := 403,
          message := "Chat is paused. Ask the other participant to resume before messaging.",
          savedMessages := [], savedChat := none, savedNotifications := [] }
      else
        match chat.participants.find? (fun p => p != senderId) with
        | none =>
          { status := 400, message := "Chat participants are invalid.",
            savedMessages := [], savedChat := none, savedNotifications := [] }
        | some other =>
          let msg : MessageRec :=
            { fromUser := senderId, toUser := other,
              requestId := chat.requestId, text := jsTrim text,
              createdAt := now }
          let chat2 : RequestChat :=
            { chat with
              lastMessage :=
                some { text := msg.text, fromUser := senderId,
                       createdAt := msg.createdAt },
              updatedAt := now }
          if notifyOk then
            { status := 201, message := "Message sent.",
              savedMessages := [msg], savedChat := some chat2,
              savedNotifications := [{ userId := other, ntype := "chat_message" }] }
          else
            { status := 500, message := "Server error while sending message.",
              savedMessages := [msg], savedChat := some chat2,
              savedNotifications := [] }

/-- The POST /:id/unpause handler: a member removes their own id from the
pause set (`none` models the ensureMember rejection for non-members). -/
def unpauseChat (chat : RequestChat) (userId : Nat) (now : Int) :
    Option RequestChat :=
  if chat.participants.contains userId then
    some { chat with
      pausedBy := chat.pausedBy.filter (fun i => i != userId),
      updatedAt := now }
  else none

/-- C8: while the pause set is non-empty, any participant's well-formed
send is answered 403 (ForbiddenError, "chat paused") with nothing
persisted — no message, no chat update; once the pause set is empty a
participant's send is answered 201, persists the message, and saves the
chat with the fresh lastMessage snapshot and updatedAt; and an unpause by
the only pauser empties the pause set. -/
theorem sendChatMessage_pause_gate :
    ∀ (chat : RequestChat) (sender other : Nat) (text : String) (now : Int),
      chat.participants.contains sender = true →
      jsTrim text ≠ "" →
      ((0 < chat.pausedBy.length →
        sendChatMessage (some chat) sender text now true =
          { status := 403,
            message := "Chat is paused. Ask the other participant to resume before messaging.",
            savedMessages := [], savedChat := none,
            savedNotifications := [] }) ∧
      (chat.pausedBy = [] →
        chat.participants.find? (fun p => p != sender) = some other →
        sendChatMessage (some chat) sender text now true =
          { status := 201, message := "Message sent.",
            savedMessages :=
              [{ fromUser := sender, toUser := other,
                 requestId := chat.requestId, text := jsTrim text,
                 createdAt := now }],
            savedChat := some
              { chat with
                lastMessage := some
                  { text := jsTrim text, fromUser := sender,
                    createdAt := now },
                updatedAt := now },
            savedNotifications :=
              [{ userId := other, ntype := "chat_message" }] }) ∧
      (∀ p, chat.participants.contains p = true →
        chat.pausedBy = [p] →
        ∃ chat2, unpauseChat chat p now = some chat2 ∧
          chat2.pausedBy = [])) := by
  intro chat sender other text now hmem htext
  have hmem2 : sender ∈ chat.participants := List.mem_of_elem_eq_true hmem
  refine ⟨?_, ?_, ?_⟩
  · intro hpause
    simp [sendChatMessage, htext, hmem2, hpause]
  · intro hempty hfind
    simp [sendChatMessage, htext, hmem2, hempty, hfind]
  · intro p hpmem hponly
    refine ⟨{ chat with
              pausedBy := chat.pausedBy.filter (fun i => i != p),
              updatedAt := now }, ?_, ?_⟩
    · unfold unpauseChat
      rw [if_pos hpmem]
    · simp [hponly]

/-- A chat between users 1 and 2 that user 2 has paused. -/
def pausedChat : RequestChat :=
  { id := 1, requestId := 10, participants := [1, 2], lastMessage := none,
    pausedBy := [2], updatedAt := 0 }

/-- The same chat once the pause set is empty. -/
def activeChat : RequestChat :=
  { pausedChat with pausedBy := [] }

/-- A concrete instance of `sendChatMessage_pause_gate`: participant 1 is
blocked with 403 while user 2 has the chat paused, user 2's unpause
empties the pause set, and participant 1's send on the unpaused chat is
answered 201 with the lastMessage snapshot updated. -/
theorem sendChatMessage_pause_gate_witness :
    (sendChatMessage (some pausedChat) 1 "hello" 5 true =
      { status := 403,
        message := "Chat is paused. Ask the other participant to resume before messaging.",
        savedMessages := [], savedChat := none,
        savedNotifications := [] }) ∧
    (∃ chat2, unpauseChat pausedChat 2 5 = some chat2 ∧
      chat2.pausedBy = []) ∧
    (sendChatMessage (some activeChat) 1 "hello" 5 true =
      { status := 201, message := "Message sent.",
        savedMessages :=
          [{ fromUser := 1, toUser := 2,
             requestId := activeChat.requestId, text := jsTrim "hello",
             createdAt := 5 }],
        savedChat := some
          { activeChat with
            lastMessage := some
              { text := jsTrim "hello", fromUser := 1,
                createdAt := 5 },
            updatedAt := 5 },
        savedNotifications := [{ userId := 2, ntype := "chat_message" }] }) :=
  ⟨(sendChatMessage_pause_gate pausedChat 1 2 "hello" 5 (by decide)
      (by decide)).1 (by decide),
    (sendChatMessage_pause_gate pausedChat 1 2 "hello" 5 (by decide)
      (by decide)).2.2 2 (by decide) rfl,
    (sendChatMessage_pause_gate activeChat 1 2 "hello" 5 (by decide)
      (by decide)).2.1 rfl (by decide)⟩

/-- C9 (code bug): with the notification emission failing, a well-formed
chat send persists the message (and the chat snapshot) but the handler
answers 500 "Server error while sending message." — the failure is not
swallowed, the caller sees the primary operation fail. -/
theorem sendChatMessage_notify_failure_surfaces :
    (sendChatMessage (some activeChat) 1 "hello" 5 false).status = 500 ∧
    (sendChatMessage (some activeChat) 1 "hello" 5 false).message =
      "Server error while sending message." ∧
    (sendChatMessage (some activeChat) 1 "hello" 5 false).savedMessages ≠ []
    := by
  refine ⟨rfl, rfl, by decide⟩
